import Mathlib

/-!
Verification development for the TransportAgent route-leg pipeline
(`src/TransportAgent/tools.py` and `src/TransportAgent/main.py`).

Numbers are modelled as exact rationals (`ℚ`); Python `round(x, n)` is
modelled as round-half-to-even at the given decimal position, `int(x)` as
truncation toward zero.  The external collaborators that live outside the
sources (`estimate_taxi_cost`, `carbon_estimate`) are passed as function
parameters; the network fetch of `compute_route` /
`get_transport_options_concurrent` is modelled by an explicit `fetched`
results argument (the dict collected after all workers complete).
-/

/-- Round-half-to-even of a rational to an integer, the tie behaviour of
Python 3 `round`. -/
def pyRoundInt (x : ℚ) : ℤ :=
  let f := ⌊x⌋
  let r := x - (f : ℚ)
  if r < 1/2 then f
  else if 1/2 < r then f + 1
  else if f % 2 = 0 then f else f + 1

/-- Model of Python `round(x, ndigits)`: round-half-to-even at the given
decimal position. -/
def pyRound (ndigits : ℕ) (x : ℚ) : ℚ :=
  (pyRoundInt (x * (10 : ℚ) ^ ndigits) : ℚ) / (10 : ℚ) ^ ndigits

/-- Model of Python `int(x)` on a float: truncation toward zero. -/
def pyTrunc (x : ℚ) : ℤ := if 0 ≤ x then ⌊x⌋ else ⌈x⌉

/-- Model of Python `str.lower()`: lower-case every character. -/
def lowerStr (s : String) : String := ⟨s.data.map Char.toLower⟩

/-- Whether the first character list is an initial segment of the second. -/
def leadsWith : List Char → List Char → Bool
  | [], _ => true
  | _ :: _, [] => false
  | c :: cs, d :: ds => c = d && leadsWith cs ds

/-- Whether `needle` occurs as a contiguous segment of `hay`. -/
def occursInL (needle : List Char) : List Char → Bool
  | [] => leadsWith needle []
  | h :: t => leadsWith needle (h :: t) || occursInL needle t

/-- Model of Python `needle in hay` on strings: substring containment. -/
def occursIn (needle hay : String) : Bool := occursInL needle.data hay.data

/-- One transit segment extracted from a route step
(`{"line": ..., "vehicle": ...}` in `parse_route_data`). -/
structure TransitStep where
  line : String
  vehicle : String
deriving DecidableEq

/-- One step of a route leg as consumed from the routing response:
its travel mode, the transit line name and vehicle type (absent for
non-transit steps), and the step distance in meters. -/
structure Step where
  travelMode : String
  transitLineName : Option String
  transitVehicleType : Option String
  distanceMeters : ℚ
deriving DecidableEq

/-- One leg of a routing response: its list of steps. -/
structure RouteLeg where
  steps : List Step
deriving DecidableEq

/-- A routing response route: total distance in meters, total duration in
seconds (the numeric content of the `"123s"` duration string; the string
parsing itself carries no logic the claims touch), and the legs. -/
structure Route where
  distanceMeters : ℚ
  durationSeconds : ℤ
  legs : List RouteLeg
deriving DecidableEq

/-- Parsed per-mode route data (`parse_route_data`'s result dict).  Keys
that the code only adds for some modes are modelled as `Option` fields
defaulting to `none`. -/
structure RawModeResult where
  travel_mode : String
  distance_km : ℚ
  distance_meters : ℚ
  duration_minutes : ℚ
  duration_seconds : ℤ
  num_transfers : Option ℕ := none
  transit_steps : Option (List TransitStep) := none
  transit_summary : Option String := none
  walking_distance_km : Option ℚ := none
  estimated_cost_sgd : ℚ
  note : Option String := none
deriving DecidableEq

/-- Vehicle-type simplification inside `create_transit_summary`: the raw
vehicle type is lower-cased, mapped to `MRT`/`Bus`/`Train` by token, and
otherwise capitalized. -/
def simplifyVehicle (vehicleType : String) : String :=
  let v := lowerStr vehicleType
  if occursIn "subway" v || occursIn "metro" v || occursIn "mrt" v then "MRT"
  else if occursIn "bus" v then "Bus"
  else if occursIn "train" v then "Train"
  else v.capitalize

/-- Model of `create_transit_summary`: a comma-joined narrative of the
transit segments, or `"Direct public transport"` when there are none. -/
def createTransitSummary (transitSteps : List TransitStep) : String :=
  if transitSteps.isEmpty then "Direct public transport"
  else
    String.intercalate ", " (transitSteps.enum.map (fun p =>
      let vehicle := simplifyVehicle p.2.vehicle
      if p.1 = 0 then "Take " ++ vehicle ++ " " ++ p.2.line
      else "then " ++ vehicle ++ " " ++ p.2.line))

/-- The TRANSIT steps of a route, flattened across legs in order, each
reduced to line name and vehicle type (defaulting to `"Unknown"`), as in
the step loop of `parse_route_data`. -/
def extractTransitSteps (route : Route) : List TransitStep :=
  (route.legs.flatMap RouteLeg.steps).filterMap (fun step =>
    if step.travelMode = "TRANSIT" then
      some { line := step.transitLineName.getD "Unknown",
             vehicle := step.transitVehicleType.getD "Unknown" }
    else none)

/-- The total distance in meters of the WALK steps of a route, as summed
by the step loop of `parse_route_data`. -/
def extractWalkingMeters (route : Route) : ℚ :=
  ((route.legs.flatMap RouteLeg.steps).filter
      (fun step => step.travelMode == "WALK")).foldl
    (fun acc step => acc + step.distanceMeters) 0

/-- Model of `parse_route_data`.  `taxiCost` stands for the external
`estimate_taxi_cost` collaborator (its module is outside the sources);
`none` routes map to `none` as in the Python `if not route` guard.  The
exception path of the Python `try` (malformed duration string) is not
modelled: durations arrive pre-parsed as integers. -/
def parseRouteData (taxiCost : ℚ → ℚ → ℚ) (travel_mode : String)
    (route : Option Route) : Option RawModeResult :=
  match route with
  | none => none
  | some route =>
    let distance_meters := route.distanceMeters
    let distance_km := distance_meters / 1000
    let duration_seconds := route.durationSeconds
    let duration_minutes : ℚ := (duration_seconds : ℚ) / 60
    let transit_steps := extractTransitSteps route
    let walking_distance_m := extractWalkingMeters route
    let num_transfers : ℕ :=
      if route.legs.isEmpty then 0
      else if transit_steps.length > 0 then transit_steps.length - 1 else 0
    let base : RawModeResult :=
      { travel_mode := travel_mode
        distance_km := pyRound 2 distance_km
        distance_meters := distance_meters
        duration_minutes := pyRound 1 duration_minutes
        duration_seconds := duration_seconds
        estimated_cost_sgd :=
          if travel_mode = "DRIVE" then taxiCost distance_km duration_minutes
          else if travel_mode = "TRANSIT" then
            pyRound 2 (92/100 + distance_km * (12/100))
          else 0 }
    some (if travel_mode = "TRANSIT" then
      { base with
          num_transfers := some num_transfers
          transit_steps := some transit_steps
          transit_summary := some (createTransitSummary transit_steps)
          walking_distance_km := some (pyRound 2 (walking_distance_m / 1000)) }
    else base)

/-- Model of `convert_walking_to_cycling`: a synthetic cycling estimate at
15 km/h from a walking result. -/
def convertWalkingToCycling (walking_data : RawModeResult) : RawModeResult :=
  let distance_km := walking_data.distance_km
  let cycling_speed_kmh : ℚ := 15
  let duration_hours := distance_km / cycling_speed_kmh
  let duration_minutes := duration_hours * 60
  { travel_mode := "CYCLE"
    distance_km := distance_km
    distance_meters := walking_data.distance_meters
    duration_minutes := pyRound 1 duration_minutes
    duration_seconds := pyTrunc (duration_minutes * 60)
    estimated_cost_sgd := 0
    note := some "Estimated based on walking route (not from Google API)" }

/-- Walk-policy thresholds (`TRANSPORT_THRESHOLDS["walk"]`). -/
structure WalkThresholds where
  api_max_distance_km : ℚ
  convert_to_cycle_distance_km : ℚ
  convert_to_cycle_duration_minutes : ℚ

/-- Cycle-policy thresholds (`TRANSPORT_THRESHOLDS["cycle"]`). -/
structure CycleThresholds where
  max_distance_km : ℚ

/-- The threshold table consumed by `get_transport_options_concurrent`. -/
structure TransportThresholds where
  walk : WalkThresholds
  cycle : CycleThresholds

/-- Modelled from the spec: `TRANSPORT_THRESHOLDS` is imported from
`config.py`, which is not among the sources.  The spec gives a walk hard
cap of 10 km, a walk-to-cycle trigger of 2 km or 20 minutes, and a cycle
cap of 8 km. -/
def TRANSPORT_THRESHOLDS : TransportThresholds :=
  { walk := { api_max_distance_km := 10
              convert_to_cycle_distance_km := 2
              convert_to_cycle_duration_minutes := 20 }
    cycle := { max_distance_km := 8 } }

/-- The per-leg results dict mapping mode names to parsed route data,
modelled as an association list in insertion order. -/
abbrev ModeResults := List (String × RawModeResult)

/-- Dict lookup: the value at the first occurrence of the key. -/
def dictFind (k : String) : ModeResults → Option RawModeResult
  | [] => none
  | (k', v) :: t => if k' = k then some v else dictFind k t

/-- Model of `del results[k]`: remove the key's entries, keeping order. -/
def dictErase (k : String) : ModeResults → ModeResults
  | [] => []
  | (k', v) :: t => if k' = k then dictErase k t else (k', v) :: dictErase k t

/-- Model of `results[k] = v`: replace in place when the key is present,
otherwise append at the end (Python dict insertion-order semantics). -/
def dictSet (k : String) (v : RawModeResult) : ModeResults → ModeResults
  | [] => [(k, v)]
  | (k', v') :: t => if k' = k then (k, v) :: t else (k', v') :: dictSet k v t

/-- The walking post-processing block at the end of
`get_transport_options_concurrent` (tools.py lines 363-398): enforce the
10 km walking cap, convert to a synthetic cycling entry when the trigger
fires and the cycle cap allows it (removing walk), or drop walk when it
does not, and otherwise keep the results untouched.  The concurrent fetch
loop above it is modelled by the `results` argument. -/
def walkCyclePostprocess (th : TransportThresholds) (results : ModeResults) :
    ModeResults :=
  match dictFind "WALK" results with
  | none => results
  | some walking_data =>
    let distance_km := walking_data.distance_km
    let duration_minutes := walking_data.duration_minutes
    if th.walk.api_max_distance_km < distance_km then
      dictErase "WALK" results
    else if th.walk.convert_to_cycle_distance_km < distance_km ∨
        th.walk.convert_to_cycle_duration_minutes < duration_minutes then
      if distance_km ≤ th.cycle.max_distance_km then
        dictErase "WALK"
          (dictSet "CYCLE" (convertWalkingToCycling walking_data) results)
      else
        dictErase "WALK" results
    else
      results

/-- The `mode_map` of `_format_transport_modes` with its `.get(mode,
mode.lower())` fallback. -/
def modeMap (mode : String) : String :=
  if mode = "WALK" then "walk"
  else if mode = "TRANSIT" then "transit"
  else if mode = "DRIVE" then "ride"
  else if mode = "CYCLE" then "cycle"
  else lowerStr mode

/-- The transit sub-classification of `_format_transport_modes` on the
already lower-cased transit summary: rail tokens (`mrt`/`metro`/`train`)
and the bus token decide between `public_transport`, `mrt` and `bus`. -/
def transitFriendlyLabel (transit_summary : String) : String :=
  let has_mrt := occursIn "mrt" transit_summary ||
    occursIn "metro" transit_summary || occursIn "train" transit_summary
  let has_bus := occursIn "bus" transit_summary
  if has_mrt && has_bus then "public_transport"
  else if has_mrt then "mrt"
  else if has_bus then "bus"
  else "public_transport"

/-- The friendly mode name chosen by `_format_transport_modes`: the
transit sub-classification when the mode is TRANSIT and a transit summary
is present, otherwise the `mode_map` name. -/
def friendlyModeOf (mode : String) (mode_data : RawModeResult) : String :=
  match mode_data.transit_summary with
  | some s => if mode = "TRANSIT" then transitFriendlyLabel (lowerStr s)
    else modeMap mode
  | none => modeMap mode

/-- Decimal-text rendering of numbers for the display-only
`route_summary` string.  Python renders binary floats here; that rendering
is outside the rational number model, and no claim reads this field. -/
def qText (q : ℚ) : String := toString q

/-- The normalized user-facing entry built by `_format_transport_modes`. -/
structure TransportModeEntry where
  mode : String
  distance_km : ℚ
  duration_minutes : ℚ
  cost_sgd : ℚ
  carbon_kg : ℚ
  route_summary : String
  transit_summary : Option String := none
  num_transfers : Option ℕ := none
  note : Option String := none
deriving DecidableEq

/-- The per-mode body of the loop in `_format_transport_modes`.
`carbonEstimate` stands for the external `carbon_estimate` collaborator
(its module is outside the sources).  Note the final conditional compares
the mode key against `"CYCLING"`, exactly as the source does. -/
def formatEntry (carbonEstimate : String → ℚ → ℚ) (mode : String)
    (mode_data : RawModeResult) : TransportModeEntry :=
  let friendly_mode := friendlyModeOf mode mode_data
  let distance_km := mode_data.distance_km
  let duration_minutes := mode_data.duration_minutes
  let cost_sgd := mode_data.estimated_cost_sgd
  let carbon_kg := carbonEstimate friendly_mode distance_km
  let route_summary_text :=
    if friendly_mode = "ride" then "Grab/Private Hire/Taxi" else friendly_mode
  let route_summary := qText distance_km ++ " km, " ++
    toString (pyRoundInt duration_minutes) ++ " mins via " ++ route_summary_text
  let base : TransportModeEntry :=
    { mode := friendly_mode
      distance_km := distance_km
      duration_minutes := pyRound 1 duration_minutes
      cost_sgd := pyRound 2 cost_sgd
      carbon_kg := pyRound 3 carbon_kg
      route_summary := route_summary }
  let withTransit :=
    if mode = "TRANSIT" ∧ mode_data.transit_summary.isSome then
      { base with transit_summary := mode_data.transit_summary
                  num_transfers := some (mode_data.num_transfers.getD 0) }
    else base
  if mode = "CYCLING" then
    { withTransit with note := some (mode_data.note.getD "") }
  else withTransit

/-- Model of `_format_transport_modes`: one entry per mode of the results
dict, in dict order.  The `mode_data is None` guard of the source is dead
here because the results dict never stores `None` values
(`get_transport_options_concurrent` only inserts parsed results). -/
def formatTransportModes (carbonEstimate : String → ℚ → ℚ)
    (transport_options : ModeResults) : List TransportModeEntry :=
  transport_options.map (fun p => formatEntry carbonEstimate p.1 p.2)

/-- A geolocation dict with possibly missing coordinates. -/
structure Geo where
  latitude : Option ℚ
  longitude : Option ℚ
deriving DecidableEq

/-- Python truthiness of an optional number: present and nonzero. -/
def truthyQ : Option ℚ → Bool
  | none => false
  | some v => decide (v ≠ 0)

/-- Model of Python `a or b` on optional numbers: `a` when truthy,
otherwise `b`. -/
def pyOrQ (a b : Option ℚ) : Option ℚ := if truthyQ a then a else b

/-- An itinerary item: name, geolocation and place id, any of which the
input may omit.  A missing `geo` key is the empty dict, i.e. both
coordinates absent. -/
structure Item where
  name : Option String
  geo : Geo
  place_id : Option String
deriving DecidableEq

/-- The `items` field of a time period: a list, a single (possibly
null or otherwise falsy) item, or absent.  `none` stands for
null-or-falsy entries, which the `if item` guard skips. -/
inductive ItemsField where
  | arr : List (Option Item) → ItemsField
  | one : Option Item → ItemsField
  | absent : ItemsField
deriving DecidableEq

/-- A time-period dict: optional `time` string and the `items` field. -/
structure PeriodData where
  time : Option String
  items : ItemsField
deriving DecidableEq

/-- A value of the day dict: either a period dict or some other JSON
value, which the `isinstance(period_data, dict)` guard skips. -/
inductive PeriodValue where
  | other : PeriodValue
  | pd : PeriodData → PeriodValue
deriving DecidableEq

/-- One day of the itinerary: period name to period value, in insertion
order. -/
abbrev DayData := List (String × PeriodValue)

/-- A stop of a day's sequence. -/
structure Stop where
  name : String
  location : Geo
  place_id : Option String
deriving DecidableEq

/-- The accommodation location argument, with `lat`, `lng` and `lon`
keys possibly absent. -/
structure AccommodationLocation where
  lat : Option ℚ
  lng : Option ℚ
  lon : Option ℚ
deriving DecidableEq

/-- The synthetic accommodation stop always placed first
(`main.py` lines 153-161); the longitude falls back from `lng` to `lon`
through Python `or`. -/
def accommodationStop (acc : AccommodationLocation) : Stop :=
  { name := "Accommodation"
    location := { latitude := acc.lat, longitude := pyOrQ acc.lng acc.lon }
    place_id := some "accommodation" }

/-- Normalization of the `items` field (`main.py` lines 177-181):
absent defaults to `[]`, a non-list truthy value is wrapped in a
singleton list, a non-list falsy value gives `[]`. -/
def normalizeItems : ItemsField → List (Option Item)
  | .arr l => l
  | .one none => []
  | .one (some it) => [some it]
  | .absent => []

/-- The stops contributed by a list of items (`main.py` lines 184-192):
null items are skipped, as are items whose geolocation lacks a truthy
latitude or longitude; names default to `"Unknown"`. -/
def itemStops (items : List (Option Item)) : List Stop :=
  items.filterMap (fun oit =>
    match oit with
    | none => none
    | some item =>
      if truthyQ item.geo.latitude && truthyQ item.geo.longitude then
        some { name := item.name.getD "Unknown"
               location := item.geo
               place_id := item.place_id }
      else none)

/-- The stops contributed by one period. -/
def periodStops (p : PeriodData) : List Stop := itemStops (normalizeItems p.items)

/-- The periods of a day that are dicts containing a `time` key
(`main.py` lines 165-168), in day order. -/
def timedPeriods (day : DayData) : List (String × PeriodData) :=
  day.filterMap (fun nv =>
    match nv.2 with
    | .other => none
    | .pd p => if p.time.isSome then some (nv.1, p) else none)

/-- The sort key of `time_periods.sort` (`main.py` line 171). -/
def periodSortKey (x : String × PeriodData) : String := x.2.time.getD "00:00"

/-- The timed periods sorted ascending by time string.  Python `list.sort`
is stable; a stable sort by a key is extensionally unique, so it is
modelled by insertion sort on non-strict key comparison, which is stable. -/
def sortedTimedPeriods (day : DayData) : List (String × PeriodData) :=
  List.insertionSort (fun a b => periodSortKey a ≤ periodSortKey b)
    (timedPeriods day)

/-- The stop sequence of one day (`main.py` lines 150-193): the
accommodation stop followed by the stops of each timed period in
chronological order. -/
def buildDaySequence (acc : AccommodationLocation) (day : DayData) :
    List Stop :=
  accommodationStop acc :: (sortedTimedPeriods day).flatMap
    (fun x => periodStops x.2)

/-- One output connection (leg). -/
structure Connection where
  connection_id : ℕ
  from_place_id : Option String
  to_place_id : Option String
  from_place_name : String
  to_place_name : String
  transport_modes : List TransportModeEntry
deriving DecidableEq

/-- The per-leg fetch oracle: what the concurrent fetch loop of
`get_transport_options_concurrent` collected for the given origin and
destination locations (failed modes absent). -/
abbrev Fetch := Geo → Geo → ModeResults

/-- The leg loop of `calculate_day_by_day_routes` (`main.py` lines
226-251): one connection per consecutive pair of stops, with the global
counter `connection_id` incremented per connection, and the transport
modes produced by post-processing and formatting the fetched results. -/
def mkConnections (carbonEstimate : String → ℚ → ℚ) (fetch : Fetch)
    (cid : ℕ) : List Stop → List Connection
  | [] => []
  | [_] => []
  | origin :: destination :: rest =>
    { connection_id := cid
      from_place_id := origin.place_id
      to_place_id := destination.place_id
      from_place_name := origin.name
      to_place_name := destination.name
      transport_modes := formatTransportModes carbonEstimate
        (walkCyclePostprocess TRANSPORT_THRESHOLDS
          (fetch origin.location destination.location)) } ::
      mkConnections carbonEstimate fetch (cid + 1) (destination :: rest)

/-- One day of the transport output. -/
structure DayTransport where
  connections : List Connection
deriving DecidableEq

/-- The day loop of `calculate_day_by_day_routes`, carrying the global
`connection_id` counter across days. -/
def calcDays (carbonEstimate : String → ℚ → ℚ) (fetch : Fetch) (cid : ℕ)
    (acc : AccommodationLocation) :
    List (String × DayData) → List (String × DayTransport)
  | [] => []
  | (date, day) :: rest =>
    let conns := mkConnections carbonEstimate fetch cid
      (buildDaySequence acc day)
    (date, { connections := conns }) ::
      calcDays carbonEstimate fetch (cid + conns.length) acc rest

/-- Model of `calculate_day_by_day_routes`: the itinerary dict in
insertion order, the global counter starting at 1. -/
def calculateDayByDayRoutes (carbonEstimate : String → ℚ → ℚ)
    (fetch : Fetch) (acc : AccommodationLocation)
    (itinerary : List (String × DayData)) : List (String × DayTransport) :=
  calcDays carbonEstimate fetch 1 acc itinerary

/-- The number of entries of a results dict carrying the given key. -/
def keyCount (k : String) : ModeResults → ℕ
  | [] => 0
  | (k', _) :: t => (if k' = k then 1 else 0) + keyCount k t

theorem mem_dictErase {kv : String × RawModeResult} {k : String} :
    ∀ {l : ModeResults}, kv ∈ dictErase k l → kv ∈ l ∧ kv.1 ≠ k := by
  intro l
  induction l with
  | nil => intro h; simp [dictErase] at h
  | cons hd t ih =>
    obtain ⟨k', v⟩ := hd
    intro h
    rw [dictErase] at h
    by_cases hk : k' = k
    · rw [if_pos hk] at h
      exact ⟨List.mem_cons_of_mem _ (ih h).1, (ih h).2⟩
    · rw [if_neg hk] at h
      rcases List.mem_cons.mp h with rfl | h'
      · exact ⟨List.mem_cons_self _ _, hk⟩
      · exact ⟨List.mem_cons_of_mem _ (ih h').1, (ih h').2⟩

theorem mem_dictSet {kv : String × RawModeResult} {k : String}
    {v : RawModeResult} :
    ∀ {l : ModeResults}, kv ∈ dictSet k v l → kv ∈ l ∨ kv = (k, v) := by
  intro l
  induction l with
  | nil => intro h; rw [dictSet] at h; simpa using h
  | cons hd t ih =>
    obtain ⟨k', v'⟩ := hd
    intro h
    rw [dictSet] at h
    by_cases hk : k' = k
    · rw [if_pos hk] at h
      rcases List.mem_cons.mp h with rfl | h'
      · exact Or.inr rfl
      · exact Or.inl (List.mem_cons_of_mem _ h')
    · rw [if_neg hk] at h
      rcases List.mem_cons.mp h with rfl | h'
      · exact Or.inl (List.mem_cons_self _ _)
      · rcases ih h' with h'' | h''
        · exact Or.inl (List.mem_cons_of_mem _ h'')
        · exact Or.inr h''

theorem dictFind_dictErase_self (k : String) :
    ∀ l : ModeResults, dictFind k (dictErase k l) = none := by
  intro l
  induction l with
  | nil => rfl
  | cons hd t ih =>
    obtain ⟨k', v⟩ := hd
    rw [dictErase]
    by_cases hk : k' = k
    · rw [if_pos hk]; exact ih
    · rw [if_neg hk, dictFind, if_neg hk]; exact ih

theorem dictFind_dictErase_ne {k' k : String} (h : k ≠ k') :
    ∀ l : ModeResults, dictFind k (dictErase k' l) = dictFind k l := by
  intro l
  induction l with
  | nil => rfl
  | cons hd t ih =>
    obtain ⟨k₀, v⟩ := hd
    rw [dictErase, dictFind]
    by_cases hk : k₀ = k'
    · rw [if_pos hk, if_neg (by rw [hk]; exact fun e => h e.symm)]
      exact ih
    · rw [if_neg hk, dictFind]
      by_cases he : k₀ = k
      · rw [if_pos he, if_pos he]
      · rw [if_neg he, if_neg he]; exact ih

theorem dictFind_dictSet_self (k : String) (v : RawModeResult) :
    ∀ l : ModeResults, dictFind k (dictSet k v l) = some v := by
  intro l
  induction l with
  | nil => simp [dictSet, dictFind]
  | cons hd t ih =>
    obtain ⟨k', v'⟩ := hd
    rw [dictSet]
    by_cases hk : k' = k
    · rw [if_pos hk, dictFind, if_pos rfl]
    · rw [if_neg hk, dictFind, if_neg hk]; exact ih

theorem keyCount_dictErase_self (k : String) :
    ∀ l : ModeResults, keyCount k (dictErase k l) = 0 := by
  intro l
  induction l with
  | nil => rfl
  | cons hd t ih =>
    obtain ⟨k', v⟩ := hd
    rw [dictErase]
    by_cases hk : k' = k
    · rw [if_pos hk]; exact ih
    · rw [if_neg hk, keyCount, if_neg hk, ih]

theorem keyCount_dictErase_ne {k' k : String} (h : k ≠ k') :
    ∀ l : ModeResults, keyCount k (dictErase k' l) = keyCount k l := by
  intro l
  induction l with
  | nil => rfl
  | cons hd t ih =>
    obtain ⟨k₀, v⟩ := hd
    rw [dictErase, keyCount]
    by_cases hk : k₀ = k'
    · rw [if_pos hk, if_neg (by rw [hk]; exact fun e => h e.symm), ih]; omega
    · rw [if_neg hk, keyCount, ih]

theorem keyCount_dictSet_absent {k : String} (v : RawModeResult) :
    ∀ {l : ModeResults}, keyCount k l = 0 → keyCount k (dictSet k v l) = 1 := by
  intro l
  induction l with
  | nil => intro _; simp [dictSet, keyCount]
  | cons hd t ih =>
    obtain ⟨k', v'⟩ := hd
    intro h0
    rw [keyCount] at h0
    by_cases hk : k' = k
    · rw [if_pos hk] at h0; omega
    · rw [if_neg hk] at h0
      rw [dictSet, if_neg hk, keyCount, if_neg hk, ih (by omega)]

/-- C5: for every synthesized cycling entry built from a walking result
with distance `d` km, the duration in minutes is `round(d / 15 * 60, 1)`
and the cost in SGD is `0.00`. -/
theorem cycle_synthesis_arithmetic (w : RawModeResult) :
    (convertWalkingToCycling w).duration_minutes =
      pyRound 1 (w.distance_km / 15 * 60) ∧
    (convertWalkingToCycling w).estimated_cost_sgd = 0 :=
  ⟨rfl, rfl⟩

/-- C6: every successfully parsed transit route with distance `d` km is
costed at `round(0.92 + 0.12 * d, 2)` SGD, and every parsed walk route is
costed at `0`. -/
theorem transit_and_walk_cost_formula (taxiCost : ℚ → ℚ → ℚ)
    (route : Route) :
    (parseRouteData taxiCost "TRANSIT" (some route)).map
        RawModeResult.estimated_cost_sgd =
      some (pyRound 2 (92/100 + route.distanceMeters / 1000 * (12/100))) ∧
    (parseRouteData taxiCost "WALK" (some route)).map
        RawModeResult.estimated_cost_sgd = some 0 :=
  ⟨rfl, rfl⟩

/-- A concrete fetched walking result of 3 km and 40 minutes, inside the
walk-to-cycle trigger band and under the cycle cap. -/
def walkRaw3km : RawModeResult :=
  { travel_mode := "WALK"
    distance_km := 3
    distance_meters := 3000
    duration_minutes := 40
    duration_seconds := 2400
    estimated_cost_sgd := 0 }

/-- C4 (code bug): on a 3 km / 40 min walking result the pipeline
synthesizes a cycling entry, and the raw cycling data does carry the
estimate note, yet the final formatted entry's note is `none`, because
`_format_transport_modes` attaches the note only when the mode key equals
`"CYCLING"` while the results key is `"CYCLE"`. -/
theorem cycle_note_dropped_in_output :
    (formatTransportModes (fun _ _ => 0)
        (walkCyclePostprocess TRANSPORT_THRESHOLDS [("WALK", walkRaw3km)])).map
        (fun e => (e.mode, e.note)) = [("cycle", none)] ∧
    (convertWalkingToCycling walkRaw3km).note =
      some "Estimated based on walking route (not from Google API)" := by
  constructor
  · rfl
  · rfl

theorem extractTransitSteps_of_no_legs {route : Route}
    (h : route.legs.isEmpty = true) : extractTransitSteps route = [] := by
  rw [extractTransitSteps, List.isEmpty_iff.mp h]
  rfl

/-- C10: a parsed transit route's transfer count is the number of
extracted transit segments minus one (zero when there are none), and
`_format_transport_modes` copies that count unchanged into the output
transit entry. -/
theorem num_transfers_from_segments (taxiCost : ℚ → ℚ → ℚ)
    (carb : String → ℚ → ℚ) (route : Route) :
    (parseRouteData taxiCost "TRANSIT" (some route)).map
        RawModeResult.num_transfers =
      some (some (if 0 < (extractTransitSteps route).length
        then (extractTransitSteps route).length - 1 else 0)) ∧
    (parseRouteData taxiCost "TRANSIT" (some route)).map
        (fun d => (formatEntry carb "TRANSIT" d).num_transfers) =
      some (some (if 0 < (extractTransitSteps route).length
        then (extractTransitSteps route).length - 1 else 0)) := by
  by_cases h : route.legs.isEmpty
  · have he := extractTransitSteps_of_no_legs h
    constructor
    · simp [parseRouteData, h, he]
    · simp [parseRouteData, formatEntry, h, he]
  · constructor
    · simp [parseRouteData, h]
    · simp [parseRouteData, formatEntry, h]

/-- C8: each day's stop sequence starts with the accommodation stop, and
its remaining stops are exactly the valid item stops of the timed periods
taken in ascending lexicographic order of the period time string (stably
sorted, so item order within a period is preserved); untimed periods and
null or coordinate-less items contribute nothing by definition of
`timedPeriods` and `periodStops`. -/
theorem day_sequence_order (acc : AccommodationLocation) (day : DayData) :
    (buildDaySequence acc day).head? = some (accommodationStop acc) ∧
    (buildDaySequence acc day).tail =
      (sortedTimedPeriods day).flatMap (fun x => periodStops x.2) ∧
    List.Sorted (fun a b => periodSortKey a ≤ periodSortKey b)
      (sortedTimedPeriods day) ∧
    (sortedTimedPeriods day).Perm (timedPeriods day) := by
  refine ⟨rfl, rfl, ?_, List.perm_insertionSort _ _⟩
  exact @List.sorted_insertionSort _ _ _
    ⟨fun a b => le_total (periodSortKey a) (periodSortKey b)⟩
    ⟨fun a b c hab hbc => le_trans hab hbc⟩ _

theorem mkConnections_map_id (carb : String → ℚ → ℚ) (fetch : Fetch) :
    ∀ (seq : List Stop) (cid : ℕ),
      (mkConnections carb fetch cid seq).map Connection.connection_id =
        List.range' cid (mkConnections carb fetch cid seq).length := by
  intro seq
  induction seq with
  | nil => intro cid; rfl
  | cons a t ih =>
    intro cid
    cases t with
    | nil => rfl
    | cons b rest =>
      simp only [mkConnections, List.map_cons, List.length_cons,
        List.range'_succ]
      rw [ih (cid + 1)]

theorem calcDays_ids (carb : String → ℚ → ℚ) (fetch : Fetch)
    (acc : AccommodationLocation) :
    ∀ (itin : List (String × DayData)) (cid : ℕ),
      (calcDays carb fetch cid acc itin).flatMap
          (fun p => p.2.connections.map Connection.connection_id) =
        List.range' cid ((calcDays carb fetch cid acc itin).flatMap
          (fun p => p.2.connections.map Connection.connection_id)).length := by
  intro itin
  induction itin with
  | nil => intro cid; rfl
  | cons hd rest ih =>
    intro cid
    obtain ⟨date, day⟩ := hd
    simp only [calcDays, List.flatMap_cons]
    rw [mkConnections_map_id, ih]
    simp only [List.length_append, List.length_range', List.length_map]
    rw [List.range'_append_1, Nat.add_comm]

/-- C3: the connection identifiers of the whole output, read in date
order then leg order, are exactly `1, 2, ..., N` with no gaps or repeats
(`List.range' 1 N`); the counter is global across days. -/
theorem connection_ids_form_global_sequence (carb : String → ℚ → ℚ)
    (fetch : Fetch) (acc : AccommodationLocation)
    (itin : List (String × DayData)) :
    (calculateDayByDayRoutes carb fetch acc itin).flatMap
        (fun p => p.2.connections.map Connection.connection_id) =
      List.range' 1 ((calculateDayByDayRoutes carb fetch acc itin).flatMap
        (fun p => p.2.connections.map Connection.connection_id)).length :=
  calcDays_ids carb fetch acc itin 1

/-- The fetch-independent part of a connection: identifier, endpoint
place ids and names. -/
def connSkeleton (c : Connection) :
    ℕ × Option String × Option String × String × String :=
  (c.connection_id, c.from_place_id, c.to_place_id,
    c.from_place_name, c.to_place_name)

theorem mkConnections_skeleton (carb : String → ℚ → ℚ) (f g : Fetch) :
    ∀ (seq : List Stop) (cid : ℕ),
      (mkConnections carb f cid seq).map connSkeleton =
        (mkConnections carb g cid seq).map connSkeleton := by
  intro seq
  induction seq with
  | nil => intro cid; rfl
  | cons a t ih =>
    intro cid
    cases t with
    | nil => rfl
    | cons b rest =>
      simp only [mkConnections, List.map_cons, connSkeleton]
      rw [ih (cid + 1)]

theorem mkConnections_empty_fetch_no_modes (carb : String → ℚ → ℚ) :
    ∀ (seq : List Stop) (cid : ℕ),
      ((mkConnections carb (fun _ _ => []) cid seq).all
        (fun c => c.transport_modes.isEmpty)) = true := by
  intro seq
  induction seq with
  | nil => intro cid; rfl
  | cons a t ih =>
    intro cid
    cases t with
    | nil => rfl
    | cons b rest =>
      simp only [mkConnections, List.all_cons]
      exact ih (cid + 1)

theorem calcDays_skeleton (carb : String → ℚ → ℚ) (f g : Fetch)
    (acc : AccommodationLocation) :
    ∀ (itin : List (String × DayData)) (cid : ℕ),
      (calcDays carb f cid acc itin).map
          (fun p => (p.1, p.2.connections.map connSkeleton)) =
        (calcDays carb g cid acc itin).map
          (fun p => (p.1, p.2.connections.map connSkeleton)) := by
  intro itin
  induction itin with
  | nil => intro cid; rfl
  | cons hd rest ih =>
    intro cid
    obtain ⟨date, day⟩ := hd
    have hsk := mkConnections_skeleton carb f g (buildDaySequence acc day) cid
    have hlen : (mkConnections carb f cid (buildDaySequence acc day)).length =
        (mkConnections carb g cid (buildDaySequence acc day)).length := by
      have := congrArg List.length hsk
      simpa using this
    simp only [calcDays, List.map_cons]
    rw [hsk, hlen, ih (cid + (mkConnections carb g cid
      (buildDaySequence acc day)).length)]

theorem calcDays_empty_fetch_no_modes (carb : String → ℚ → ℚ)
    (acc : AccommodationLocation) :
    ∀ (itin : List (String × DayData)) (cid : ℕ),
      ((calcDays carb (fun _ _ => []) cid acc itin).all
        (fun p => p.2.connections.all
          (fun c => c.transport_modes.isEmpty))) = true := by
  intro itin
  induction itin with
  | nil => intro cid; rfl
  | cons hd rest ih =>
    intro cid
    obtain ⟨date, day⟩ := hd
    simp only [calcDays, List.all_cons, Bool.and_eq_true]
    exact ⟨mkConnections_empty_fetch_no_modes carb _ cid, ih _⟩

/-- C9: legs are emitted even when every transport mode fetch failed:
the output's skeleton (dates, connection ids, endpoint ids and names per
leg) is identical to the run where every fetch returns nothing, and in
that all-failures run every connection still appears, carrying an empty
`transport_modes` list while consuming its `connection_id`. -/
theorem legs_survive_fetch_failures (carb : String → ℚ → ℚ) (fetch : Fetch)
    (acc : AccommodationLocation) (itin : List (String × DayData)) :
    (calculateDayByDayRoutes carb fetch acc itin).map
        (fun p => (p.1, p.2.connections.map connSkeleton)) =
      (calculateDayByDayRoutes carb (fun _ _ => []) acc itin).map
        (fun p => (p.1, p.2.connections.map connSkeleton)) ∧
    ((calculateDayByDayRoutes carb (fun _ _ => []) acc itin).all
      (fun p => p.2.connections.all
        (fun c => c.transport_modes.isEmpty))) = true :=
  ⟨calcDays_skeleton carb fetch (fun _ _ => []) acc itin 1,
   calcDays_empty_fetch_no_modes carb acc itin 1⟩

theorem formatEntry_mode (carb : String → ℚ → ℚ) (mode : String)
    (d : RawModeResult) :
    (formatEntry carb mode d).mode = friendlyModeOf mode d := by
  simp only [formatEntry]
  split
  · split <;> rfl
  · split <;> rfl

/-- C7: the friendly label of a transit entry is decided by scanning the
lower-cased transit summary: rail tokens (`mrt`, `metro`, `train`) and the
bus token present gives `public_transport`, only rail gives `mrt`, only
bus gives `bus`, and neither gives the default `public_transport`. -/
theorem transit_label_from_summary (carb : String → ℚ → ℚ)
    (d : RawModeResult) (s : String) (hs : d.transit_summary = some s) :
    (((occursIn "mrt" (lowerStr s) || occursIn "metro" (lowerStr s) ||
          occursIn "train" (lowerStr s)) = true ∧
        occursIn "bus" (lowerStr s) = true) →
      (formatEntry carb "TRANSIT" d).mode = "public_transport") ∧
    (((occursIn "mrt" (lowerStr s) || occursIn "metro" (lowerStr s) ||
          occursIn "train" (lowerStr s)) = true ∧
        occursIn "bus" (lowerStr s) = false) →
      (formatEntry carb "TRANSIT" d).mode = "mrt") ∧
    (((occursIn "mrt" (lowerStr s) || occursIn "metro" (lowerStr s) ||
          occursIn "train" (lowerStr s)) = false ∧
        occursIn "bus" (lowerStr s) = true) →
      (formatEntry carb "TRANSIT" d).mode = "bus") ∧
    (((occursIn "mrt" (lowerStr s) || occursIn "metro" (lowerStr s) ||
          occursIn "train" (lowerStr s)) = false ∧
        occursIn "bus" (lowerStr s) = false) →
      (formatEntry carb "TRANSIT" d).mode = "public_transport") := by
  rw [formatEntry_mode]
  refine ⟨?_, ?_, ?_, ?_⟩ <;> rintro ⟨h1, h2⟩ <;>
    simp [friendlyModeOf, hs, transitFriendlyLabel, h1, h2]

/-- A concrete parsed transit result whose summary names both an MRT
line and a bus service. -/
def transitRawMixed : RawModeResult :=
  { travel_mode := "TRANSIT"
    distance_km := 5
    distance_meters := 5000
    duration_minutes := 30
    duration_seconds := 1800
    num_transfers := some 1
    transit_summary := some "Take MRT North South Line, then Bus 174"
    estimated_cost_sgd := 152/100 }

/-- Witness for the transit labelling claim: a summary containing both an
MRT token and a bus token is labelled `public_transport`. -/
theorem transit_label_from_summary_witness :
    (formatEntry (fun _ _ => 0) "TRANSIT" transitRawMixed).mode =
      "public_transport" :=
  (transit_label_from_summary (fun _ _ => 0) transitRawMixed
    "Take MRT North South Line, then Bus 174" rfl).1 ⟨by decide, by decide⟩

theorem transitFriendlyLabel_ne (s : String) :
    transitFriendlyLabel s ≠ "walk" ∧ transitFriendlyLabel s ≠ "cycle" := by
  simp only [transitFriendlyLabel]
  split_ifs <;> refine ⟨?_, ?_⟩ <;> decide

theorem friendlyModeOf_eq_walk {k : String} {d : RawModeResult}
    (hk : k = "DRIVE" ∨ k = "TRANSIT" ∨ k = "WALK" ∨ k = "CYCLE")
    (h : friendlyModeOf k d = "walk") : k = "WALK" := by
  rcases hk with rfl | rfl | rfl | rfl
  · exfalso; cases hsum : d.transit_summary <;>
      simp [friendlyModeOf, hsum, modeMap] at h
  · exfalso
    cases hsum : d.transit_summary with
    | none => simp [friendlyModeOf, hsum, modeMap] at h
    | some s =>
      simp only [friendlyModeOf, hsum, if_true] at h
      exact (transitFriendlyLabel_ne (lowerStr s)).1 h
  · rfl
  · exfalso; cases hsum : d.transit_summary <;>
      simp [friendlyModeOf, hsum, modeMap] at h

theorem friendlyModeOf_eq_cycle {k : String} {d : RawModeResult}
    (hk : k = "DRIVE" ∨ k = "TRANSIT" ∨ k = "WALK" ∨ k = "CYCLE")
    (h : friendlyModeOf k d = "cycle") : k = "CYCLE" := by
  rcases hk with rfl | rfl | rfl | rfl
  · exfalso; cases hsum : d.transit_summary <;>
      simp [friendlyModeOf, hsum, modeMap] at h
  · exfalso
    cases hsum : d.transit_summary with
    | none => simp [friendlyModeOf, hsum, modeMap] at h
    | some s =>
      simp only [friendlyModeOf, hsum, if_true] at h
      exact (transitFriendlyLabel_ne (lowerStr s)).2 h
  · exfalso; cases hsum : d.transit_summary <;>
      simp [friendlyModeOf, hsum, modeMap] at h
  · rfl

theorem mem_walkCyclePostprocess {kv : String × RawModeResult}
    {th : TransportThresholds} {rs : ModeResults}
    (h : kv ∈ walkCyclePostprocess th rs) : kv ∈ rs ∨ kv.1 = "CYCLE" := by
  rw [walkCyclePostprocess] at h
  cases hf : dictFind "WALK" rs with
  | none => rw [hf] at h; exact Or.inl h
  | some w =>
    rw [hf] at h
    simp only at h
    split_ifs at h
    · exact Or.inl (mem_dictErase h).1
    · have h1 := mem_dictErase h
      rcases mem_dictSet h1.1 with h2 | h2
      · exact Or.inl h2
      · right; rw [h2]
    · exact Or.inl (mem_dictErase h).1
    · exact Or.inl h

theorem cycle_key_in_input_of_both {th : TransportThresholds}
    {rs : ModeResults} {a b : RawModeResult}
    (hw : ("WALK", a) ∈ walkCyclePostprocess th rs)
    (hc : ("CYCLE", b) ∈ walkCyclePostprocess th rs) :
    ∃ c, ("CYCLE", c) ∈ rs := by
  rw [walkCyclePostprocess] at hw hc
  cases hf : dictFind "WALK" rs with
  | none => rw [hf] at hc; exact ⟨b, hc⟩
  | some w =>
    rw [hf] at hw hc
    simp only at hw hc
    split_ifs at hw hc
    · exact absurd rfl (mem_dictErase hw).2
    · exact absurd rfl (mem_dictErase hw).2
    · exact absurd rfl (mem_dictErase hw).2
    · exact ⟨b, hc⟩

/-- C1: the final transport-mode list of a leg never contains both a
`walk` entry and a `cycle` entry, for any threshold table and any fetched
results whose keys come from the requested mode set
`{DRIVE, TRANSIT, WALK}` of the pipeline's call. -/
theorem walk_cycle_mutually_exclusive (carb : String → ℚ → ℚ)
    (th : TransportThresholds) (fetched : ModeResults)
    (hmodes : ∀ kv ∈ fetched,
      kv.1 = "DRIVE" ∨ kv.1 = "TRANSIT" ∨ kv.1 = "WALK") :
    ¬ ((∃ e ∈ formatTransportModes carb (walkCyclePostprocess th fetched),
          e.mode = "walk") ∧
       (∃ e ∈ formatTransportModes carb (walkCyclePostprocess th fetched),
          e.mode = "cycle")) := by
  rintro ⟨⟨e1, he1, hm1⟩, ⟨e2, he2, hm2⟩⟩
  rw [formatTransportModes] at he1 he2
  obtain ⟨⟨k1, d1⟩, hkv1, rfl⟩ := List.mem_map.mp he1
  obtain ⟨⟨k2, d2⟩, hkv2, rfl⟩ := List.mem_map.mp he2
  rw [formatEntry_mode] at hm1 hm2
  have hk1set : k1 = "DRIVE" ∨ k1 = "TRANSIT" ∨ k1 = "WALK" ∨ k1 = "CYCLE" := by
    rcases mem_walkCyclePostprocess hkv1 with h | h
    · rcases hmodes _ h with h' | h' | h'
      · exact Or.inl h'
      · exact Or.inr (Or.inl h')
      · exact Or.inr (Or.inr (Or.inl h'))
    · exact Or.inr (Or.inr (Or.inr h))
  have hk2set : k2 = "DRIVE" ∨ k2 = "TRANSIT" ∨ k2 = "WALK" ∨ k2 = "CYCLE" := by
    rcases mem_walkCyclePostprocess hkv2 with h | h
    · rcases hmodes _ h with h' | h' | h'
      · exact Or.inl h'
      · exact Or.inr (Or.inl h')
      · exact Or.inr (Or.inr (Or.inl h'))
    · exact Or.inr (Or.inr (Or.inr h))
  have hk1 : k1 = "WALK" := friendlyModeOf_eq_walk hk1set hm1
  have hk2 : k2 = "CYCLE" := friendlyModeOf_eq_cycle hk2set hm2
  subst hk1; subst hk2
  obtain ⟨c, hcmem⟩ := cycle_key_in_input_of_both hkv1 hkv2
  rcases hmodes _ hcmem with h | h | h <;> simp at h

/-- Witness for walk/cycle exclusivity: a concrete leg whose only fetched
mode is a 3 km walk, run through the full post-processing and formatting. -/
theorem walk_cycle_mutually_exclusive_witness :
    ¬ ((∃ e ∈ formatTransportModes (fun _ _ => 0)
          (walkCyclePostprocess TRANSPORT_THRESHOLDS [("WALK", walkRaw3km)]),
          e.mode = "walk") ∧
       (∃ e ∈ formatTransportModes (fun _ _ => 0)
          (walkCyclePostprocess TRANSPORT_THRESHOLDS [("WALK", walkRaw3km)]),
          e.mode = "cycle")) :=
  walk_cycle_mutually_exclusive (fun _ _ => 0) TRANSPORT_THRESHOLDS
    [("WALK", walkRaw3km)]
    (by intro kv hkv
        simp only [List.mem_singleton] at hkv
        subst hkv
        right; right; rfl)

/-- C2: the walk/cycle policy on a leg whose fetched walk result has
distance `d` km and duration `t` minutes: above 10 km both walk and cycle
are absent; in the trigger band (`d > 2` or `t > 20`) with `d ≤ 8` exactly
one synthetic cycle entry replaces walk; in the trigger band with
`8 < d ≤ 10` walk is dropped with no substitute; and at `d ≤ 2` and
`t ≤ 20` the results are returned untouched, walk included. -/
theorem walk_cycle_policy (fetched : ModeResults) (w : RawModeResult)
    (hw : dictFind "WALK" fetched = some w)
    (hc : keyCount "CYCLE" fetched = 0) :
    (10 < w.distance_km →
      keyCount "WALK" (walkCyclePostprocess TRANSPORT_THRESHOLDS fetched) = 0 ∧
      keyCount "CYCLE" (walkCyclePostprocess TRANSPORT_THRESHOLDS fetched) = 0) ∧
    ((2 < w.distance_km ∨ 20 < w.duration_minutes) → w.distance_km ≤ 8 →
      keyCount "WALK" (walkCyclePostprocess TRANSPORT_THRESHOLDS fetched) = 0 ∧
      keyCount "CYCLE" (walkCyclePostprocess TRANSPORT_THRESHOLDS fetched) = 1 ∧
      dictFind "CYCLE" (walkCyclePostprocess TRANSPORT_THRESHOLDS fetched) =
        some (convertWalkingToCycling w)) ∧
    (w.distance_km ≤ 10 → (2 < w.distance_km ∨ 20 < w.duration_minutes) →
      8 < w.distance_km →
      keyCount "WALK" (walkCyclePostprocess TRANSPORT_THRESHOLDS fetched) = 0 ∧
      keyCount "CYCLE" (walkCyclePostprocess TRANSPORT_THRESHOLDS fetched) = 0) ∧
    (w.distance_km ≤ 2 → w.duration_minutes ≤ 20 →
      walkCyclePostprocess TRANSPORT_THRESHOLDS fetched = fetched ∧
      dictFind "WALK" (walkCyclePostprocess TRANSPORT_THRESHOLDS fetched) =
        some w) := by
  simp only [walkCyclePostprocess, hw, TRANSPORT_THRESHOLDS]
  refine ⟨?_, ?_, ?_, ?_⟩
  · intro h10
    rw [if_pos h10]
    exact ⟨keyCount_dictErase_self _ _,
      by rw [keyCount_dictErase_ne (by decide)]; exact hc⟩
  · intro hconv h8
    rw [if_neg (by linarith : ¬ (10:ℚ) < w.distance_km), if_pos hconv,
      if_pos h8]
    refine ⟨keyCount_dictErase_self _ _, ?_, ?_⟩
    · rw [keyCount_dictErase_ne (by decide)]
      exact keyCount_dictSet_absent _ hc
    · rw [dictFind_dictErase_ne (by decide), dictFind_dictSet_self]
  · intro h10 hconv h8
    rw [if_neg (by linarith : ¬ (10:ℚ) < w.distance_km), if_pos hconv,
      if_neg (by linarith : ¬ w.distance_km ≤ 8)]
    exact ⟨keyCount_dictErase_self _ _,
      by rw [keyCount_dictErase_ne (by decide)]; exact hc⟩
  · intro h2 h20
    rw [if_neg (by linarith : ¬ (10:ℚ) < w.distance_km),
      if_neg (by push_neg; exact ⟨h2, h20⟩ :
        ¬ ((2:ℚ) < w.distance_km ∨ (20:ℚ) < w.duration_minutes))]
    exact ⟨rfl, hw⟩

/-- Witness for the walk/cycle policy: the concrete 3 km / 40 min walk
lands in the conversion band, so walk disappears and exactly one
synthesized cycle entry remains. -/
theorem walk_cycle_policy_witness :
    keyCount "WALK" (walkCyclePostprocess TRANSPORT_THRESHOLDS
      [("WALK", walkRaw3km)]) = 0 ∧
    keyCount "CYCLE" (walkCyclePostprocess TRANSPORT_THRESHOLDS
      [("WALK", walkRaw3km)]) = 1 ∧
    dictFind "CYCLE" (walkCyclePostprocess TRANSPORT_THRESHOLDS
      [("WALK", walkRaw3km)]) = some (convertWalkingToCycling walkRaw3km) :=
  (walk_cycle_policy [("WALK", walkRaw3km)] walkRaw3km rfl rfl).2.1
    (Or.inl (by norm_num [walkRaw3km])) (by norm_num [walkRaw3km])
